import Mathlib

/-
Verification of the jupyter-js-services kernel/session client.

This file gives a shallow embedding, in Lean, of the code in
`src/kernel.ts`, `src/utils.ts` and `src/session/default.ts` of the
repository, and proves properties of that embedding.

Conventions used throughout:
* JavaScript `Map` objects and plain-object registries are modelled as
  association lists `List (String × α)` with `assocGet` / `assocSet` /
  `assocDelete` mirroring `get` / `set` / `delete`.
* Nullable fields (`x: T = null`) are modelled as `Option`; in particular
  `Kernel._futures === null` (the disposal marker used by
  `Kernel.isDisposed`) is `futures = none`.
* Synchronously throwing code is modelled with `Except String`; a promise
  that is created without being awaited is modelled by a small inductive
  describing its settlement state.
* In this snapshot of the repository `KernelSocket`'s handlers read
  `this.status` and call `this._updateStatus`, which live on `Kernel`
  (the two classes share the kernel status through the engine); we model
  the pair as one combined state record `KernelState`.
-/

/-! ## Data model (src/kernel.ts, src/ikernel.ts) -/

/-- Kernel lifecycle status, `KernelStatus` in `ikernel.ts` (spec section 3). -/
inductive KernelStatus
  | unknown
  | starting
  | idle
  | busy
  | restarting
  | reconnecting
  | dead
  deriving DecidableEq, Repr

/-- Message channel, one of the four wire channels. -/
inductive Channel
  | shell
  | iopub
  | stdin
  | control
  deriving DecidableEq, Repr

/-- Message header (`IKernelMessageHeader`). -/
structure MsgHeader where
  username : String
  version : String
  session : String
  msgId : String
  msgType : String
  deriving DecidableEq, Repr

/-- Superset record for the `content` field of a kernel message: the
fields consulted by the dispatch code in `kernel.ts` (execution_state for
`status` messages, comm fields for `comm_*` messages). -/
structure MsgContent where
  executionState : String := ""
  commId : String := ""
  targetName : String := ""
  targetModule : Option String := none
  data : String := ""
  deriving DecidableEq, Repr

/-- Kernel message (`IKernelMessage`).  `parent_header` is `{}` (an empty
object, carrying no `msg_id`) or a real header; we model the empty object
as `none` since `Map.get(undefined)` never matches a registered id. -/
structure KernelMessage where
  header : MsgHeader
  parentHeader : Option MsgHeader
  channel : Channel
  content : MsgContent
  deriving DecidableEq, Repr

/-- Message construction options (`IKernelMessageOptions`).  The random
`utils.uuid()` default for `msg_id` is made explicit: callers pass the id. -/
structure KernelMessageOptions where
  msgType : String
  channel : Channel
  username : String
  session : String
  msgId : String
  deriving DecidableEq, Repr

/-- Translation of `createKernelMessage` (`kernel.ts`): builds the header
with protocol version "5.0" and an empty parent header. -/
def createKernelMessage (options : KernelMessageOptions)
    (content : MsgContent := {}) : KernelMessage :=
  { header :=
      { username := options.username
        version := "5.0"
        session := options.session
        msgId := options.msgId
        msgType := options.msgType }
    parentHeader := none
    channel := options.channel
    content := content }

/-! ## Association-list operations standing for JS `Map` / object maps -/

/-- Lookup, as `Map.get` / `obj[key]` (returning `undefined` as `none`). -/
def assocGet {α : Type} (m : List (String × α)) (k : String) : Option α :=
  match m with
  | [] => none
  | (k2, v) :: rest => if k2 = k then some v else assocGet rest k

/-- Insertion or overwrite, as `Map.set` / `obj[key] = v`. -/
def assocSet {α : Type} (m : List (String × α)) (k : String) (v : α) :
    List (String × α) :=
  match m with
  | [] => [(k, v)]
  | (k2, v2) :: rest =>
    if k2 = k then (k, v) :: rest else (k2, v2) :: assocSet rest k v

/-- Deletion, as `Map.delete` / `delete obj[key]`. -/
def assocDelete {α : Type} (m : List (String × α)) (k : String) :
    List (String × α) :=
  match m with
  | [] => []
  | (k2, v) :: rest =>
    if k2 = k then rest else (k2, v) :: assocDelete rest k

/-! ## Futures and comms held by the engine -/

/-- Data of a `KernelFutureHandler` entry as created by
`Kernel.sendShellMessage` (the handler class itself lives in the missing
`kernelfuture.ts`; only the constructor arguments recorded here are needed). -/
structure FutureEntry where
  msgId : String
  expectReply : Bool
  disposeOnDone : Bool
  deriving DecidableEq, Repr

/-- Comm channel handler state (`class Comm` in `kernel.ts`).  `alive`
models `_msgFunc !== null`, which is exactly `!isDisposed`. -/
structure Comm where
  target : String
  id : String
  alive : Bool
  deriving DecidableEq, Repr

/-- Outgoing shell payload produced by a comm (`Private.ICommPayload`). -/
structure CommPayload where
  msgType : String
  commId : String
  deriving DecidableEq, Repr

/-- Translation of `Comm.dispose` (`kernel.ts`): clears the callbacks and
the message function.  It sends nothing to the server. -/
def Comm.disposeComm (c : Comm) : Comm × List CommPayload :=
  ({ c with alive := false }, [])

/-- Translation of `Comm.close` (`kernel.ts`): a no-op when already
disposed, otherwise sends a `comm_close` payload via `_msgFunc` and then
disposes the comm. -/
def Comm.closeComm (c : Comm) : Comm × List CommPayload :=
  if !c.alive then (c, [])
  else
    let payload : CommPayload := { msgType := "comm_close", commId := c.id }
    (({ c with alive := false }), [payload])

/-- Pending server-initiated comm open (`Kernel._commPromises` entry): the
open message is retained by the promise body in `_handleCommOpen`, and
`comm_msg` frames that arrive before resolution are chained onto the
promise by `_handleCommMsg`, in arrival order. -/
structure PendingOpen where
  openMsgId : String
  chained : List String
  deriving DecidableEq, Repr

/-! ## Combined engine state (`class Kernel` + `class KernelSocket`) -/

/-- Combined state of one engine: the `Kernel` fields (`_status`,
`_futures`, `_comms`, `_commPromises`, `_targetRegistry`) and the
`KernelSocket` fields (`_reconnectAttempt`, `_reconnectLimit`, `_isReady`,
`_pendingMessages`, `_ws`).  Nullable maps are `Option`; `wsAlive` models
`_ws !== null`.  Target callbacks are identified by numeric tokens. -/
structure KernelState where
  status : KernelStatus := .unknown
  futures : Option (List (String × FutureEntry)) := some []
  comms : Option (List (String × Comm)) := some []
  commPromises : Option (List (String × PendingOpen)) := some []
  targetRegistry : Option (List (String × Nat)) := some []
  reconnectAttempt : Nat := 0
  reconnectLimit : Nat := 7
  isReady : Bool := false
  pendingMessages : List KernelMessage := []
  wsAlive : Bool := true
  deriving DecidableEq, Repr

/-- Translation of `Kernel.isDisposed`: `this._futures === null`. -/
def KernelState.isDisposed (k : KernelState) : Bool :=
  k.futures = none

/-- Translation of `KernelSocket.dispose` restricted to the fields of the
combined state (`_ws.close(); _ws = null`); the mutation of the global
`runningKernels` registry is modelled separately by `socketDisposeRegistry`. -/
def socketDisposeLocal (k : KernelState) : KernelState :=
  { k with wsAlive := false }

/-- Translation of `Kernel.dispose`: when not yet disposed, set the status
to `Dead`, dispose the socket, dispose every future and comm, and null out
all four registries.  The second component collects every payload sent to
the server on the way, which for `Comm.dispose` is none. -/
def Kernel.dispose (k : KernelState) : KernelState × List CommPayload :=
  if k.isDisposed then (k, [])
  else
    let sent :=
      (k.comms.getD []).flatMap (fun c => (Comm.disposeComm c.2).2)
    let k1 := socketDisposeLocal k
    ({ k1 with
        status := .dead
        futures := none
        commPromises := none
        comms := none
        targetRegistry := none }, sent)

/-! ## Status updates (`Kernel._updateStatus`, claim C2) -/

/-- Translation of the `switch (state)` at the top of
`Kernel._updateStatus`: maps the `execution_state` string to a
`KernelStatus`, or `none` for an invalid string (logged and ignored). -/
def statusFromState (state : String) : Option KernelStatus :=
  if state = "starting" then some .starting
  else if state = "idle" then some .idle
  else if state = "busy" then some .busy
  else if state = "restarting" then some .restarting
  else if state = "reconnecting" then some .reconnecting
  else if state = "dead" then some .dead
  else none

/-- Translation of `Kernel._updateStatus`: on a recognised state that
differs from the current status, store it, emit `statusChanged` (the
emitted statuses are returned as a list), and on `Dead` dispose the
engine. -/
def updateStatus (k : KernelState) (state : String) :
    KernelState × List KernelStatus :=
  match statusFromState state with
  | none => (k, [])
  | some st =>
    if st ≠ k.status then
      let k1 := { k with status := st }
      if st = .dead then ((Kernel.dispose k1).1, [st])
      else (k1, [st])
    else (k, [])

/-- Translation of the delivery path of one incoming `status` message:
`KernelSocket._onWSMessage` drops every frame when the status is `Dead`
("if the socket is being closed, ignore any messages"); otherwise the
`execution_state` reaches `Kernel._updateStatus`. -/
def receiveStatus (k : KernelState) (state : String) :
    KernelState × List KernelStatus :=
  if k.status = .dead then (k, [])
  else updateStatus k state

/-- Iterated `receiveStatus` over a sequence of incoming states,
accumulating every `statusChanged` emission in order. -/
def runStatuses (k : KernelState) : List String →
    KernelState × List KernelStatus
  | [] => (k, [])
  | s :: rest =>
    let (k1, e1) := receiveStatus k s
    let (k2, e2) := runStatuses k1 rest
    (k2, e1 ++ e2)

/-! ## Reconnection (`KernelSocket._onWSClose`, claim C4) -/

/-- Translation of `KernelSocket._onWSClose` (also installed as
`onerror`): a no-op when the kernel is `Dead`; otherwise clear the socket,
and either schedule `_createSocket` after `2^attempt` seconds while
bumping the attempt counter and moving the status to `reconnecting`, or,
with the budget exhausted, move the status to `dead`.  The second
component is the scheduled reconnect delay in seconds, if any. -/
def onWSClose (k : KernelState) : KernelState × Option Nat :=
  if k.status = .dead then (k, none)
  else
    let k1 := { k with wsAlive := false }
    if k1.reconnectAttempt < k1.reconnectLimit then
      let k2 := (updateStatus k1 "reconnecting").1
      ({ k2 with reconnectAttempt := k2.reconnectAttempt + 1 },
        some (2 ^ k1.reconnectAttempt))
    else ((updateStatus k1 "dead").1, none)

/-! ## Message dispatch (`Kernel._onKernelMessage`, claim C1) -/

/-- Observable action performed by `Kernel._onKernelMessage` while
routing one incoming frame, in execution order. -/
inductive KEvent
  | futureMsg (msgId : String)
  | statusUpd (state : String)
  | commOpenH (commId : String)
  | commMsgH (commId : String)
  | commCloseH (commId : String)
  | iopubEmit
  | unhandledEmit
  deriving DecidableEq, Repr

/-- Translation of `Kernel._onKernelMessage` as the ordered list of
actions it performs on one frame.  `valid` is the outcome of
`validate.validateKernelMessage` (an invalid frame is logged and dropped).
`futures` is the key set of the live `_futures` map.  A frame whose
`parent_header.msg_id` names a live future is handed to
`future.handleMsg` and marked handled; an `iopub` frame then runs the
built-in sub-type handler and is emitted on `iopubReceived`; an unhandled
frame is finally emitted on `unhandledMessage`. -/
def onKernelMessage (futures : List String) (valid : Bool)
    (msg : KernelMessage) : List KEvent :=
  if !valid then []
  else
    let matched :=
      match msg.parentHeader with
      | some h => futures.contains h.msgId
      | none => false
    let futureEvents :=
      match msg.parentHeader with
      | some h => if futures.contains h.msgId then [KEvent.futureMsg h.msgId] else []
      | none => []
    let iopubEvents :=
      if msg.channel = .iopub then
        (if msg.header.msgType = "status" then
          [KEvent.statusUpd msg.content.executionState]
        else if msg.header.msgType = "comm_open" then
          [KEvent.commOpenH msg.content.commId]
        else if msg.header.msgType = "comm_msg" then
          [KEvent.commMsgH msg.content.commId]
        else if msg.header.msgType = "comm_close" then
          [KEvent.commCloseH msg.content.commId]
        else []) ++ [KEvent.iopubEmit]
      else []
    let unhandledEvents := if !matched then [KEvent.unhandledEmit] else []
    futureEvents ++ iopubEvents ++ unhandledEvents

/-! ## Socket send queue (`KernelSocket.send` / `_sendPending`, claim C3) -/

/-- Translation of `KernelSocket.send`: while the socket is not ready the
message is pushed onto the end of `_pendingMessages`; otherwise it is
serialized and handed to `this._ws.send`, which is a synchronous
`TypeError` when `_ws` is null — a reachable state, because `_onWSClose`
nulls `_ws` without resetting `_isReady`, so the ready branch runs on a
null socket during the reconnect backoff window.  On success the second
component is the message given to `_ws.send` now, if any. -/
def socketSend (k : KernelState) (msg : KernelMessage) :
    Except String (KernelState × Option KernelMessage) :=
  if !k.isReady then
    .ok ({ k with pendingMessages := k.pendingMessages ++ [msg] }, none)
  else if !k.wsAlive then .error "TypeError: _ws is null"
  else .ok (k, some msg)

/-- Translation of `KernelSocket._sendPending`: repeatedly serialize the
head of the queue, hand it to `_ws.send`, and only then shift it off the
queue — so a `_ws.send` that throws leaves that message at the head.
`wsSendOk m = false` means `_ws.send` throws on `m` during this flush.
Returns the messages actually sent, in order, and the remaining queue. -/
def sendPending (wsSendOk : KernelMessage → Bool) :
    List KernelMessage → List KernelMessage × List KernelMessage
  | [] => ([], [])
  | m :: rest =>
    if wsSendOk m then
      let (sent, remaining) := sendPending wsSendOk rest
      (m :: sent, remaining)
    else ([], m :: rest)

/-! ## Target resolution (`loadObject` in src/utils.ts, claim C6) -/

/-- JavaScript string truthiness of an optional string argument:
`undefined` and the empty string are falsy. -/
def strTruthy (s : Option String) : Bool :=
  match s with
  | none => false
  | some str => str ≠ ""

/-- Environment for `loadObject`: whether the `requirejs` global is
defined, and the exports of each loadable module (`none` meaning the
module fails to load, which invokes the `errback`).  Loaded objects are
identified by numeric tokens. -/
structure LoadEnv where
  requirejsDefined : Bool
  modules : String → Option (List (String × Nat))

/-- Outcome of the promise returned by `loadObject`. -/
inductive LoadResult
  | resolved (target : Nat)
  | rejected (msg : String)
  | thrown (msg : String)
  deriving DecidableEq, Repr

/-- Translation of `loadObject` (src/utils.ts): when `moduleName` is
truthy it requires the module and looks the name up in the module's
exports — the registry is not consulted on this path; only when
`moduleName` is falsy does it fall back to the registry. -/
def loadObject (name : String) (moduleName : Option String)
    (registry : Option (List (String × Nat))) (env : LoadEnv) : LoadResult :=
  if strTruthy moduleName then
    if !env.requirejsDefined then .thrown "requirejs not found"
    else
      match env.modules (moduleName.getD "") with
      | none => .rejected "module load failed"
      | some exports =>
        match assocGet exports name with
        | none =>
          .rejected ("Object " ++ name ++ " not found in module " ++
            moduleName.getD "")
        | some target => .resolved target
  else
    match registry with
    | some reg =>
      match assocGet reg name with
      | some target => .resolved target
      | none => .rejected ("Object " ++ name ++ " not found in registry")
    | none => .rejected ("Object " ++ name ++ " not found in registry")

/-! ## Comm open / comm msg chaining (claims C6, C8) -/

/-- Action taken by `Kernel._handleCommMsg` on one `comm_msg` frame. -/
inductive CommMsgAction
  | chainedOntoOpen
  | deliveredNow
  | droppedWithLog
  deriving DecidableEq, Repr

/-- Translation of `Kernel._handleCommOpen`, state part: a promise that
will resolve the target and then register the comm is stored in
`_commPromises` under the announced comm id, with no chained messages yet. -/
def handleCommOpen (pend : List (String × PendingOpen))
    (commId openMsgId : String) : List (String × PendingOpen) :=
  assocSet pend commId { openMsgId := openMsgId, chained := [] }

/-- Translation of `Kernel._handleCommMsg`: a frame for a comm whose open
is still resolving is chained onto the pending promise (`promise.then`),
a frame for a registered comm is delivered to `onMsg` now, and a frame
for an unknown comm id is logged and dropped. -/
def handleCommMsg (comms : List (String × Comm))
    (pend : List (String × PendingOpen)) (commId msgId : String) :
    List (String × PendingOpen) × CommMsgAction :=
  match assocGet pend commId with
  | some p =>
    (assocSet pend commId { p with chained := p.chained ++ [msgId] },
      .chainedOntoOpen)
  | none =>
    match assocGet comms commId with
    | some _ => (pend, .deliveredNow)
    | none => (pend, .droppedWithLog)

/-- Callback invocation performed while a pending comm open resolves. -/
inductive CommEvent
  | targetCalled (openMsgId : String)
  | onMsgCalled (msgId : String)
  deriving DecidableEq, Repr

/-- Resolution semantics of the promise stored by `_handleCommOpen`: the
promise body first runs the target callback with the open message, which
resolves the promise; the reactions registered by `promise.then` in
`_handleCommMsg` then run in registration (arrival) order, each invoking
the comm's `onMsg` with its chained message. -/
def resolveOpen (p : PendingOpen) : List CommEvent :=
  CommEvent.targetCalled p.openMsgId :: p.chained.map CommEvent.onMsgCalled

/-! ## The promise of `Private.sendKernelMessage` (claim C7) -/

/-- Settlement state of the promise returned by `Private.sendKernelMessage`. -/
inductive PromiseSt
  | pending
  | resolvedWithReply
  | rejectedP
  deriving DecidableEq, Repr

/-- Event affecting one outstanding request after
`Private.sendKernelMessage` has wired `future.onReply = resolve`. -/
inductive FutEvent
  | replyArrived
  | futureDisposed
  deriving DecidableEq, Repr

/-- State of one wired request: the promise settlement and whether the
future has been disposed. -/
structure WiredRequest where
  promise : PromiseSt
  futureDisposed : Bool
  deriving DecidableEq, Repr

/-- Step function for a wired request, as set up by
`Private.sendKernelMessage` (src/kernel.ts): the promise executor captures
only `resolve`, stored into `future.onReply`; `reject` is captured by
nothing.  A reply reaching a live future resolves the promise; disposing
the future (which is what `Kernel.dispose` does to every pending future)
stops delivery but settles nothing, since no code path holds `reject`. -/
def wiredStep (w : WiredRequest) (e : FutEvent) : WiredRequest :=
  match e with
  | .replyArrived =>
    if w.futureDisposed then w
    else
      match w.promise with
      | .pending => { w with promise := .resolvedWithReply }
      | _ => w
  | .futureDisposed => { w with futureDisposed := true }

/-- Initial state right after `Private.sendKernelMessage` returns. -/
def wiredInit : WiredRequest :=
  { promise := .pending, futureDisposed := false }

/-- Run of a wired request over a sequence of events. -/
def wiredRun (evs : List FutEvent) : WiredRequest :=
  evs.foldl wiredStep wiredInit

/-! ## Public operations of the engine (claim C5) -/

/-- Settlement of a promise returned synchronously by a public operation. -/
inductive OpPromise
  | rejectedNow (msg : String)
  | wiredToFuture (msgId : String)
  | restPending
  | resolvedNow
  deriving DecidableEq, Repr

/-- Translation of `Kernel.sendShellMessage`: throws `Kernel is dead` when
the status is `Dead`; otherwise sends the message on the socket — which
itself throws a `TypeError` in the reconnect backoff window where
`_isReady` is still set but `_ws` is null — then creates a
`KernelFutureHandler` keyed by the message id, registers it in `_futures`
(a `TypeError` if `_futures` has been nulled by disposal, which only
happens in the `Dead` state), and returns the future. -/
def sendShellMessage (k : KernelState) (msg : KernelMessage)
    (expectReply : Bool := false) (disposeOnDone : Bool := true) :
    Except String (KernelState × FutureEntry) :=
  if k.status = .dead then .error "Kernel is dead"
  else
    match socketSend k msg with
    | .error e => .error e
    | .ok (k1, _) =>
      match k1.futures with
      | none => .error "TypeError: _futures is null"
      | some fs =>
        let fut : FutureEntry :=
          { msgId := msg.header.msgId, expectReply := expectReply
            disposeOnDone := disposeOnDone }
        .ok ({ k1 with futures := some (assocSet fs msg.header.msgId fut) },
          fut)

/-- Translation of `Private.sendKernelMessage`: wraps `sendShellMessage`
in try/catch — a synchronous throw becomes a rejected promise — and
otherwise returns a promise whose `resolve` is stored in
`future.onReply`.  It never throws synchronously. -/
def sendKernelMessage (k : KernelState) (msg : KernelMessage) :
    KernelState × OpPromise :=
  match sendShellMessage k msg true with
  | .error e => (k, .rejectedNow e)
  | .ok (k1, fut) => (k1, .wiredToFuture fut.msgId)

/-- Translation of the convenience request wrappers `kernelInfo`,
`complete`, `inspect`, `history`, `isComplete` and `commInfo`: build a
shell message of the given type via `createKernelMessage` and delegate to
`Private.sendKernelMessage`.  None of them throws synchronously. -/
def requestWrapper (k : KernelState) (msgType : String)
    (username session msgId : String) (content : MsgContent := {}) :
    KernelState × OpPromise :=
  let options : KernelMessageOptions :=
    { msgType := msgType, channel := .shell, username := username
      session := session, msgId := msgId }
  sendKernelMessage k (createKernelMessage options content)

/-- Execute-request content with the optional fields of
`IExecuteRequest`. -/
structure ExecuteRequest where
  code : String
  silent : Option Bool := none
  storeHistory : Option Bool := none
  allowStdin : Option Bool := none
  stopOnError : Option Bool := none
  deriving DecidableEq, Repr

/-- Defaults filled in by `Kernel.execute` via `utils.extend` before the
message is sent. -/
def fillExecuteDefaults (r : ExecuteRequest) : ExecuteRequest :=
  { r with
      silent := some (r.silent.getD false)
      storeHistory := some (r.storeHistory.getD true)
      allowStdin := some (r.allowStdin.getD true)
      stopOnError := some (r.stopOnError.getD false) }

/-- Translation of `Kernel.execute`: fills the request defaults, builds an
`execute_request` message and calls `sendShellMessage` directly with
`expectReply = true` — so, unlike the promise wrappers, it throws
synchronously whenever `sendShellMessage` does. -/
def execute (k : KernelState) (r : ExecuteRequest)
    (username session msgId : String) (disposeOnDone : Bool := true) :
    Except String (KernelState × FutureEntry) :=
  let options : KernelMessageOptions :=
    { msgType := "execute_request", channel := .shell, username := username
      session := session, msgId := msgId }
  let _filled := fillExecuteDefaults r
  let msg := createKernelMessage options { data := r.code }
  sendShellMessage k msg true disposeOnDone

/-- Translation of `Kernel.sendInputReply`: throws `Kernel is dead` when
the status is `Dead`; otherwise builds an `input_reply` message on the
stdin channel and sends it on the socket (fire and forget) — which, like
every socket send, throws a `TypeError` in the reconnect backoff window
where `_ws` is null but `_isReady` is still set. -/
def sendInputReply (k : KernelState) (username session msgId : String) :
    Except String KernelState :=
  if k.status = .dead then .error "Kernel is dead"
  else
    let options : KernelMessageOptions :=
      { msgType := "input_reply", channel := .stdin, username := username
        session := session, msgId := msgId }
    match socketSend k (createKernelMessage options) with
    | .error e => .error e
    | .ok (k1, _) => .ok k1

/-- Translation of `Kernel._clearState`: disposes every future and comm
and replaces the three maps with fresh empty ones.  Iterating the maps
(`this._futures.forEach`) is a `TypeError` when they have been nulled by
disposal. -/
def clearState (k : KernelState) : Except String KernelState :=
  match k.futures, k.comms with
  | some _, some cs =>
    let _disposed := cs.map (fun c => (Comm.disposeComm c.2).1)
    .ok { k with futures := some [], commPromises := some [], comms := some [] }
  | _, _ => .error "TypeError: cannot iterate null state"

/-- Translation of `Kernel.interrupt` / `Private.interruptKernel`: returns
a promise, rejected immediately when the kernel is `Dead`, and never
throws synchronously. -/
def interrupt (k : KernelState) : KernelState × OpPromise :=
  if k.status = .dead then (k, .rejectedNow "Kernel is dead")
  else (k, .restPending)

/-- Translation of `Kernel.restart`: synchronously runs `_clearState` and
`_updateStatus('restarting')`, then returns the REST promise from
`Private.restartKernel` (rejected when the kernel is `Dead`). -/
def restart (k : KernelState) : Except String (KernelState × OpPromise) :=
  match clearState k with
  | .error e => .error e
  | .ok k1 =>
    let k2 := (updateStatus k1 "restarting").1
    if k2.status = .dead then .ok (k2, .rejectedNow "Kernel is dead")
    else .ok (k2, .restPending)

/-- Translation of `Kernel.shutdown`: synchronously runs `_clearState`,
then returns the REST promise from `Private.shutdownKernel` (rejected when
the kernel is `Dead`), whose fulfilment disposes the kernel. -/
def shutdown (k : KernelState) : Except String (KernelState × OpPromise) :=
  match clearState k with
  | .error e => .error e
  | .ok k1 =>
    if k1.status = .dead then .ok (k1, .rejectedNow "Kernel is dead")
    else .ok (k1, .restPending)

/-- Translation of `Kernel.registerCommTarget`: stores the callback in
`_targetRegistry[targetName]` — a `TypeError` when the registry has been
nulled by disposal. -/
def registerCommTarget (k : KernelState) (targetName : String)
    (callback : Nat) : Except String KernelState :=
  match k.targetRegistry with
  | none => .error "TypeError: _targetRegistry is null"
  | some reg =>
    .ok { k with targetRegistry := some (assocSet reg targetName callback) }

/-- Translation of `Kernel.connectToComm`: returns the existing comm for
the id, or creates and registers a fresh one — `this._comms.get` is a
`TypeError` when the map has been nulled by disposal. -/
def connectToComm (k : KernelState) (targetName commId : String) :
    Except String (KernelState × Comm) :=
  match k.comms with
  | none => .error "TypeError: _comms is null"
  | some cs =>
    match assocGet cs commId with
    | some comm => .ok (k, comm)
    | none =>
      let comm : Comm := { target := targetName, id := commId, alive := true }
      .ok ({ k with comms := some (assocSet cs commId comm) }, comm)

/-- Translation of `Kernel.getKernelSpec`: returns the memoized spec or a
REST promise; never throws synchronously (`_spec` is not nulled by
disposal). -/
def getKernelSpec (k : KernelState) (cachedSpec : Option Nat) :
    KernelState × OpPromise :=
  match cachedSpec with
  | some _ => (k, .resolvedNow)
  | none => (k, .restPending)

/-- Reachability invariant of the engine state: disposal (the only path
that nulls any of the four registries, and the only path to status `Dead`)
nulls all four of them and sets the status to `Dead` together. -/
def WellFormed (k : KernelState) : Prop :=
  (k.status = .dead ↔ k.futures = none) ∧
  (k.futures = none ↔ k.comms = none) ∧
  (k.futures = none ↔ k.commPromises = none) ∧
  (k.futures = none ↔ k.targetRegistry = none)

instance : DecidablePred WellFormed := fun k => by
  unfold WellFormed; infer_instance

/-! ## Session shutdown over REST (claim C9) -/

/-- Outcome of the XHR behind `utils.ajaxRequest` for the session DELETE:
either the success handler runs with an HTTP status, or the error handler
runs with the failing status. -/
inductive AjaxOutcome
  | success (httpStatus : Nat)
  | failure (httpStatus : Nat)
  deriving DecidableEq, Repr

/-- Result of `Private.shutdownSession` (src/session/default.ts):
whether the returned promise resolves or rejects, whether the matching
local sessions were terminated and disposed (`killSessions`), whether a
warning was logged, and the `throwError` message attached to the
rejection, if any. -/
structure ShutdownResult where
  resolves : Bool
  killedLocal : Bool
  warned : Bool
  throwErr : Option String
  deriving DecidableEq, Repr

/-- Translation of `Private.shutdownSession` (src/session/default.ts): a
204 success kills the local sessions and resolves; any other success
status rejects; a 404 failure logs a warning, kills the local sessions and
resolves (idempotent delete); a 410 failure rejects with the message
`The kernel was deleted but the session was not`; any other failure
rejects via `onSessionError`. -/
def shutdownSession (outcome : AjaxOutcome) : ShutdownResult :=
  match outcome with
  | .success httpStatus =>
    if httpStatus ≠ 204 then
      { resolves := false, killedLocal := false, warned := false
        throwErr := none }
    else
      { resolves := true, killedLocal := true, warned := false
        throwErr := none }
  | .failure httpStatus =>
    if httpStatus = 404 then
      { resolves := true, killedLocal := true, warned := true
        throwErr := none }
    else if httpStatus = 410 then
      { resolves := false, killedLocal := false, warned := false
        throwErr := some "The kernel was deleted but the session was not" }
    else
      { resolves := false, killedLocal := false, warned := false
        throwErr := none }

/-! ## The module-wide socket registry (claim C10) -/

/-- Identity of one `KernelSocket` as held in `Private.runningKernels`. -/
structure KernelSocketRec where
  id : String
  wsUrl : String
  name : String
  deriving DecidableEq, Repr

/-- Translation of the registry write in the `KernelSocket` constructor:
`Private.runningKernels[id] = this`. -/
def socketConstructRegistry (reg : List (String × KernelSocketRec))
    (s : KernelSocketRec) : List (String × KernelSocketRec) :=
  assocSet reg s.id s

/-- Translation of the registry write in `KernelSocket.dispose`:
`delete Private.runningKernels[this._wsUrl]` — the entry removed is the
one keyed by the websocket url, not the one keyed by the kernel id. -/
def socketDisposeRegistry (reg : List (String × KernelSocketRec))
    (s : KernelSocketRec) : List (String × KernelSocketRec) :=
  assocDelete reg s.wsUrl

/-- Translation of the lookup `Private.runningKernels[id]` performed by
`connectToKernel` (and `startNewKernel` / `findKernelById`): a present
entry is reused instead of creating a fresh socket. -/
def runningKernelLookup (reg : List (String × KernelSocketRec))
    (id : String) : Option KernelSocketRec :=
  assocGet reg id

/-! ## Concrete sample values used by witnesses and counterexamples -/

/-- Fresh engine state as built by the `Kernel` constructor. -/
def freshKernel : KernelState := {}

/-- Engine state after `Kernel.dispose` (equivalently, after the terminal
`dead` status): status `Dead`, all registries nulled. -/
def deadKernel : KernelState := (Kernel.dispose {}).1

/-- Engine state in the reconnect backoff window: the socket had become
ready (`_onWSMessage` set `_isReady = true` on the first idle/busy/
starting status) and then closed — `_onWSClose` nulls `_ws` and moves the
status to `Reconnecting` without resetting `_isReady`. -/
def reconnectingKernel : KernelState :=
  (onWSClose { freshKernel with isReady := true }).1

/-- Sample execute request. -/
def sampleExecuteRequest : ExecuteRequest := { code := "1+1" }

/-- Sample socket identity for the registry claims. -/
def sampleSocketRec : KernelSocketRec :=
  { id := "abc123", wsUrl := "ws://localhost:8888", name := "python" }

/-- Sample module environment: module `m` exports target `tgt` as token 2,
module `empty` exports nothing. -/
def sampleLoadEnv : LoadEnv :=
  { requirejsDefined := true
    modules := fun modName =>
      if modName = "m" then some [("tgt", 2)]
      else if modName = "empty" then some []
      else none }

/-- Sample parent header of an outstanding request. -/
def sampleParentHeader : MsgHeader :=
  { username := "u", version := "5.0", session := "s", msgId := "req-1"
    msgType := "execute_request" }

/-- Sample iopub `status` message replying to `req-1`. -/
def sampleStatusMsg : KernelMessage :=
  { header :=
      { username := "u", version := "5.0", session := "s", msgId := "io-1"
        msgType := "status" }
    parentHeader := some sampleParentHeader
    channel := .iopub
    content := { executionState := "idle" } }

/-- Sample shell message built through `createKernelMessage`. -/
def sampleShellMsg : KernelMessage :=
  createKernelMessage
    { msgType := "kernel_info_request", channel := .shell, username := "u"
      session := "s", msgId := "req-2" }

/-- Sample pending comm open with one message already chained. -/
def samplePendingOpen : PendingOpen := { openMsgId := "open-1", chained := ["m1"] }

/-! ## Helper lemmas -/

/-- Disposal always leaves the engine disposed (`_futures === null`). -/
theorem dispose_isDisposed (k : KernelState) :
    ((Kernel.dispose k).1).isDisposed = true := by
  unfold Kernel.dispose
  by_cases h : k.isDisposed
  · simp [h]
  · have hf : ¬ k.futures = none := by
      simpa [KernelState.isDisposed] using h
    simp [KernelState.isDisposed, hf]

/-- Disposal never moves the status away from `Dead`. -/
theorem dispose_status_dead (k : KernelState) (h : k.status = .dead) :
    ((Kernel.dispose k).1).status = .dead := by
  unfold Kernel.dispose
  by_cases hd : k.isDisposed
  · simpa [hd] using h
  · have hf : ¬ k.futures = none := by
      simpa [KernelState.isDisposed] using hd
    simp [KernelState.isDisposed, hf]

/-- Status messages arriving at a `Dead` engine are dropped by
`_onWSMessage` before any handler runs. -/
theorem receiveStatus_of_dead (k : KernelState) (s : String)
    (h : k.status = .dead) : receiveStatus k s = (k, []) := by
  simp [receiveStatus, h]

/-- Iterated form of `receiveStatus_of_dead`: a `Dead` engine ignores
every further status sequence, changing nothing and emitting nothing. -/
theorem runStatuses_of_dead (k : KernelState) (h : k.status = .dead) :
    ∀ l, runStatuses k l = (k, []) := by
  intro l
  induction l with
  | nil => rfl
  | cons s rest ih =>
    simp [runStatuses, receiveStatus_of_dead k s h, ih]

/-- C2: over any sequence of status updates, `statusChanged` is emitted
only when the parsed status differs from the current one (and at most once
per update); once the status is `Dead` the engine processes no further
update (`Dead` is absorbing, so `statusChanged` never fires after it); and
an update that moves the status to `Dead` leaves the engine disposed. -/
theorem c2_status_machine :
    (∀ (k : KernelState) (s : String) (st : KernelStatus),
        (receiveStatus k s).2 = [st] → st ≠ k.status) ∧
    (∀ (k : KernelState) (s : String),
        (receiveStatus k s).2 = [] ∨ ∃ st, (receiveStatus k s).2 = [st]) ∧
    (∀ (k : KernelState) (l : List String), k.status = .dead →
        runStatuses k l = (k, [])) ∧
    (∀ (k : KernelState) (s : String), k.status ≠ .dead →
        (receiveStatus k s).1.status = .dead →
        ((receiveStatus k s).1).isDisposed = true) := by
  refine ⟨?_, ?_, ?_, ?_⟩
  · intro k s st h
    by_cases hd : k.status = KernelStatus.dead
    · simp [receiveStatus, hd] at h
    · simp only [receiveStatus, hd, if_neg hd] at h
      rcases hst : statusFromState s with _ | st2
      · simp [updateStatus, hst] at h
      · by_cases hne : st2 = k.status
        · simp [updateStatus, hst, hne] at h
        · by_cases hdd : st2 = KernelStatus.dead
          · subst hdd
            simp [updateStatus, hst, hne, Ne.symm hd] at h
            subst h; exact fun hc => hne hc
          · simp [updateStatus, hst, hne, hdd] at h
            subst h; exact fun hc => hne hc
  · intro k s
    by_cases hd : k.status = KernelStatus.dead
    · left; simp [receiveStatus, hd]
    · simp only [receiveStatus, hd, if_neg hd]
      rcases hst : statusFromState s with _ | st2
      · left; simp [updateStatus, hst]
      · by_cases hne : st2 = k.status
        · left; simp [updateStatus, hst, hne]
        · by_cases hdd : st2 = KernelStatus.dead
          · subst hdd
            right
            exact ⟨KernelStatus.dead, by simp [updateStatus, hst, hne, Ne.symm hd]⟩
          · right; exact ⟨st2, by simp [updateStatus, hst, hne, hdd]⟩
  · intro k l h
    exact runStatuses_of_dead k h l
  · intro k s hne hdead
    simp only [receiveStatus, hne, if_neg hne] at hdead ⊢
    rcases hst : statusFromState s with _ | st2
    · simp [updateStatus, hst] at hdead ⊢
      exact absurd hdead hne
    · by_cases heq : st2 = k.status
      · simp [updateStatus, hst, heq] at hdead ⊢
        exact absurd hdead hne
      · by_cases hdd : st2 = KernelStatus.dead
        · subst hdd
          simp only [updateStatus, hst, Ne.symm hne, ne_eq, not_false_iff, if_true,
            reduceIte]
          exact dispose_isDisposed _
        · simp [updateStatus, hst, heq, hdd] at hdead

/-- C2 witness: a `Dead` engine ignores a concrete follow-up sequence. -/
theorem c2_status_machine_witness :
    runStatuses deadKernel ["idle", "busy"] = (deadKernel, []) :=
  c2_status_machine.2.2.1 deadKernel ["idle", "busy"] (by decide)

/-- C3: a send while the socket is not ready appends to the tail of the
pending queue (FIFO); a flush sends a prefix of the queue in queue order —
`sent ++ remaining = queue`, so each message is sent at most once and
exactly once when the flush completes; the remaining queue is headed by
the message on which `_ws.send` threw, which is therefore retried first on
the next flush. -/
theorem c3_pending_queue :
    (∀ (k : KernelState) (m : KernelMessage), k.isReady = false →
        socketSend k m =
          .ok ({ k with pendingMessages := k.pendingMessages ++ [m] },
            none)) ∧
    (∀ (wsSendOk : KernelMessage → Bool) (q : List KernelMessage),
        (sendPending wsSendOk q).1 ++ (sendPending wsSendOk q).2 = q) ∧
    (∀ (wsSendOk : KernelMessage → Bool) (q : List KernelMessage)
        (m : KernelMessage) (rest : List KernelMessage),
        (sendPending wsSendOk q).2 = m :: rest → wsSendOk m = false) ∧
    (∀ (wsSendOk2 : KernelMessage → Bool) (m : KernelMessage)
        (rest : List KernelMessage), wsSendOk2 m = true →
        ∃ sentTail remaining,
          sendPending wsSendOk2 (m :: rest) = (m :: sentTail, remaining)) := by
  refine ⟨?_, ?_, ?_, ?_⟩
  · intro k m h
    simp [socketSend, h]
  · intro ok q
    induction q with
    | nil => rfl
    | cons m rest ih =>
      by_cases h : ok m
      · simp [sendPending, h, ih]
      · simp [sendPending, h]
  · intro ok q
    induction q with
    | nil => intro m rest h; simp [sendPending] at h
    | cons m2 rest2 ih =>
      intro m rest h
      by_cases h2 : ok m2
      · simp only [sendPending, h2, if_true] at h
        exact ih m rest h
      · simp only [sendPending, h2] at h
        simp only [Bool.false_eq_true, if_false] at h
        obtain ⟨hm, _⟩ := List.cons.injEq .. ▸ h
        rw [← hm]
        exact Bool.not_eq_true _ ▸ h2
  · intro ok2 m rest h
    refine ⟨(sendPending ok2 rest).1, (sendPending ok2 rest).2, ?_⟩
    simp [sendPending, h]

/-- C3 witness: concrete queue where the second send throws — the first
message is sent, the queue retains the thrower at its head, and a
successful retry flushes the rest in order. -/
theorem c3_pending_queue_witness :
    (sendPending (fun m => m.header.msgId ≠ "req-2") [sampleStatusMsg, sampleShellMsg]).1 ++
      (sendPending (fun m => m.header.msgId ≠ "req-2") [sampleStatusMsg, sampleShellMsg]).2 =
      [sampleStatusMsg, sampleShellMsg] ∧
    socketSend freshKernel sampleShellMsg =
      .ok ({ freshKernel with pendingMessages := [sampleShellMsg] }, none) :=
  ⟨c3_pending_queue.2.1 _ _,
    by
      have h := c3_pending_queue.1 freshKernel sampleShellMsg rfl
      simpa [freshKernel] using h⟩

/-- Updating with `reconnecting` always lands on `Reconnecting` and leaves
the attempt counter alone. -/
theorem updateStatus_reconnecting (k : KernelState) :
    (updateStatus k "reconnecting").1.status = .reconnecting ∧
    (updateStatus k "reconnecting").1.reconnectAttempt = k.reconnectAttempt := by
  have hs : statusFromState "reconnecting" = some KernelStatus.reconnecting := rfl
  by_cases hrc : KernelStatus.reconnecting = k.status
  · simp [updateStatus, hs, hrc]
  · simp [updateStatus, hs, hrc]

/-- Updating a non-`Dead` engine with `dead` lands on `Dead`. -/
theorem updateStatus_dead (k : KernelState) (h : k.status ≠ .dead) :
    (updateStatus k "dead").1.status = .dead := by
  have hs : statusFromState "dead" = some KernelStatus.dead := rfl
  simp only [updateStatus, hs, ne_eq]
  rw [if_pos (fun hc => h hc.symm)]
  simpa using dispose_status_dead { k with status := KernelStatus.dead } rfl

/-- C4: on a websocket close or error while the kernel is not `Dead`, the
engine either — when the attempt count is below the limit, whose default
is 7 — moves to `Reconnecting`, schedules a socket rebuild after
`2^attempt` seconds and increments the counter, or — with the budget
exhausted — moves the status to `Dead`. -/
theorem c4_reconnect_backoff :
    (({} : KernelState).reconnectLimit = 7) ∧
    (∀ k : KernelState, k.status ≠ .dead →
        k.reconnectAttempt < k.reconnectLimit →
        (onWSClose k).1.status = .reconnecting ∧
        (onWSClose k).2 = some (2 ^ k.reconnectAttempt) ∧
        (onWSClose k).1.reconnectAttempt = k.reconnectAttempt + 1) ∧
    (∀ k : KernelState, k.status ≠ .dead →
        ¬ k.reconnectAttempt < k.reconnectLimit →
        (onWSClose k).1.status = .dead ∧ (onWSClose k).2 = none) := by
  refine ⟨rfl, ?_, ?_⟩
  · intro k hne hlt
    have h1 := updateStatus_reconnecting { k with wsAlive := false }
    simp [onWSClose, hne, hlt, h1.1, h1.2]
  · intro k hne hlt
    have h1 := updateStatus_dead { k with wsAlive := false } hne
    simp [onWSClose, hne, hlt, h1]

/-- C4 witness: a fresh engine (attempt 0 below limit 7) reconnects with a
1-second delay, and an engine with the budget exhausted dies. -/
theorem c4_reconnect_backoff_witness :
    (onWSClose freshKernel).1.status = KernelStatus.reconnecting ∧
    (onWSClose freshKernel).2 = some 1 ∧
    (onWSClose { freshKernel with reconnectAttempt := 7 }).1.status =
      KernelStatus.dead :=
  ⟨(c4_reconnect_backoff.2.1 freshKernel (by decide) (by decide)).1,
    (c4_reconnect_backoff.2.1 freshKernel (by decide) (by decide)).2.1,
    (c4_reconnect_backoff.2.2 { freshKernel with reconnectAttempt := 7 }
      (by decide) (by decide)).1⟩

/-- C9: a 404 on the session DELETE is treated as success — a warning is
logged, the matching local sessions are terminated and disposed, and the
promise resolves; a 410 rejects with the specific message that the kernel
was deleted but the session was not. -/
theorem c9_session_delete :
    shutdownSession (AjaxOutcome.failure 404) =
      { resolves := true, killedLocal := true, warned := true
        throwErr := none } ∧
    (shutdownSession (AjaxOutcome.failure 410)).resolves = false ∧
    (shutdownSession (AjaxOutcome.failure 410)).throwErr =
      some "The kernel was deleted but the session was not" := by
  refine ⟨rfl, rfl, rfl⟩

/-- C10 (code evaluated at the failing input): the constructor registers
the socket under its kernel id, but `dispose` deletes the entry keyed by
`_wsUrl`, so after dispose the registry still holds the kernel-id entry
and `connectToKernel` with that id finds — and would reuse — the disposed
socket instead of creating a fresh one. -/
theorem c10_dispose_leaves_registry_entry :
    runningKernelLookup (socketConstructRegistry [] sampleSocketRec)
      "abc123" = some sampleSocketRec ∧
    runningKernelLookup
      (socketDisposeRegistry (socketConstructRegistry [] sampleSocketRec)
        sampleSocketRec) "abc123" = some sampleSocketRec := by
  refine ⟨rfl, rfl⟩

/-- C6 (code evaluated at the failing input): with target `tgt` registered
locally as callback 1 and `target_module = m` whose export of `tgt` is
callback 2, `loadObject` resolves callback 2 — the module, not the local
registry, wins; with a module lacking the name it rejects even though the
registry has the target; only with a falsy `target_module` is the local
registry consulted. -/
theorem c6_module_beats_registry :
    loadObject "tgt" (some "m") (some [("tgt", 1)]) sampleLoadEnv =
      LoadResult.resolved 2 ∧
    loadObject "tgt" (some "empty") (some [("tgt", 1)]) sampleLoadEnv =
      LoadResult.rejected "Object tgt not found in module empty" ∧
    loadObject "tgt" none (some [("tgt", 1)]) sampleLoadEnv =
      LoadResult.resolved 1 := by
  refine ⟨rfl, rfl, rfl⟩

/-- Membership facts about the iopub sub-handler block of
`onKernelMessage`: it never contains a future delivery nor an unhandled
emission. -/
theorem iopub_block_members (msg : KernelMessage) (pid : String) :
    KEvent.futureMsg pid ∉
      ((if msg.header.msgType = "status" then
          [KEvent.statusUpd msg.content.executionState]
        else if msg.header.msgType = "comm_open" then
          [KEvent.commOpenH msg.content.commId]
        else if msg.header.msgType = "comm_msg" then
          [KEvent.commMsgH msg.content.commId]
        else if msg.header.msgType = "comm_close" then
          [KEvent.commCloseH msg.content.commId]
        else []) ++ [KEvent.iopubEmit]) ∧
    KEvent.unhandledEmit ∉
      ((if msg.header.msgType = "status" then
          [KEvent.statusUpd msg.content.executionState]
        else if msg.header.msgType = "comm_open" then
          [KEvent.commOpenH msg.content.commId]
        else if msg.header.msgType = "comm_msg" then
          [KEvent.commMsgH msg.content.commId]
        else if msg.header.msgType = "comm_close" then
          [KEvent.commCloseH msg.content.commId]
        else []) ++ [KEvent.iopubEmit]) := by
  constructor
  · intro hmem
    rcases List.mem_append.mp hmem with h2 | h2
    · (split at h2) <;> (try (split at h2)) <;> (try (split at h2)) <;>
        (try (split at h2))
      all_goals simp_all
    · simp_all
  · intro hmem
    rcases List.mem_append.mp hmem with h2 | h2
    · (split at h2) <;> (try (split at h2)) <;> (try (split at h2)) <;>
        (try (split at h2))
      all_goals simp_all
    · simp_all

/-- C1: a validated message whose `parent_header.msg_id` names a live
future is delivered to that future first — exactly once, before any
`iopub` broadcast of the same frame — and is never emitted on
`unhandledMessage`; a validated message matching no live future is emitted
on `unhandledMessage` and delivered to no future. -/
theorem c1_future_routing :
    (∀ (futures : List String) (msg : KernelMessage) (h : MsgHeader),
        msg.parentHeader = some h → futures.contains h.msgId = true →
        ∃ rest, onKernelMessage futures true msg =
            KEvent.futureMsg h.msgId :: rest ∧
          KEvent.futureMsg h.msgId ∉ rest ∧
          KEvent.unhandledEmit ∉ rest ∧
          (msg.channel = Channel.iopub → KEvent.iopubEmit ∈ rest)) ∧
    (∀ (futures : List String) (msg : KernelMessage),
        (∀ h, msg.parentHeader = some h → futures.contains h.msgId = false) →
        KEvent.unhandledEmit ∈ onKernelMessage futures true msg ∧
        ∀ pid, KEvent.futureMsg pid ∉ onKernelMessage futures true msg) := by
  constructor
  · intro futures msg h hp hc
    have hc2 : h.msgId ∈ futures := by simpa using hc
    refine ⟨(if msg.channel = Channel.iopub then
        (if msg.header.msgType = "status" then
          [KEvent.statusUpd msg.content.executionState]
        else if msg.header.msgType = "comm_open" then
          [KEvent.commOpenH msg.content.commId]
        else if msg.header.msgType = "comm_msg" then
          [KEvent.commMsgH msg.content.commId]
        else if msg.header.msgType = "comm_close" then
          [KEvent.commCloseH msg.content.commId]
        else []) ++ [KEvent.iopubEmit]
      else []), ?_, ?_, ?_, ?_⟩
    · simp [onKernelMessage, hp, hc2]
    · by_cases hch : msg.channel = Channel.iopub
      · simpa [hch] using (iopub_block_members msg h.msgId).1
      · simp [hch]
    · by_cases hch : msg.channel = Channel.iopub
      · simpa [hch] using (iopub_block_members msg h.msgId).2
      · simp [hch]
    · intro hch
      simp [hch]
  · intro futures msg hu
    have hev : onKernelMessage futures true msg =
        (if msg.channel = Channel.iopub then
          (if msg.header.msgType = "status" then
            [KEvent.statusUpd msg.content.executionState]
          else if msg.header.msgType = "comm_open" then
            [KEvent.commOpenH msg.content.commId]
          else if msg.header.msgType = "comm_msg" then
            [KEvent.commMsgH msg.content.commId]
          else if msg.header.msgType = "comm_close" then
            [KEvent.commCloseH msg.content.commId]
          else []) ++ [KEvent.iopubEmit]
        else []) ++ [KEvent.unhandledEmit] := by
      rcases hph : msg.parentHeader with _ | h
      · simp [onKernelMessage, hph]
      · have hu2 : h.msgId ∉ futures := by simpa using hu h hph
        simp [onKernelMessage, hph, hu2]
    rw [hev]
    constructor
    · exact List.mem_append_right _ (by simp)
    · intro pid hmem
      rcases List.mem_append.mp hmem with h2 | h2
      · by_cases hch : msg.channel = Channel.iopub
        · rw [if_pos hch] at h2
          exact (iopub_block_members msg pid).1 h2
        · rw [if_neg hch] at h2
          simp at h2
      · simp at h2

/-- C1 witness: a concrete status frame replying to tracked request
`req-1` is delivered to the future first and never marked unhandled, and
the same frame against an empty future registry goes to
`unhandledMessage`. -/
theorem c1_future_routing_witness :
    (∃ rest, onKernelMessage ["req-1"] true sampleStatusMsg =
        KEvent.futureMsg "req-1" :: rest ∧
      KEvent.futureMsg "req-1" ∉ rest ∧
      KEvent.unhandledEmit ∉ rest ∧
      (sampleStatusMsg.channel = Channel.iopub → KEvent.iopubEmit ∈ rest)) ∧
    KEvent.unhandledEmit ∈ onKernelMessage [] true sampleStatusMsg :=
  ⟨c1_future_routing.1 ["req-1"] sampleStatusMsg sampleParentHeader rfl
      (by decide),
    (c1_future_routing.2 [] sampleStatusMsg (fun h _ => by simp)).1⟩

/-- C8: a `comm_msg` arriving for a comm id whose server-initiated open is
still resolving is chained onto the pending open promise (not dropped, not
delivered early); when the open resolves, the target callback runs first
with the open message and every chained `onMsg` delivery follows in
arrival order, the new message last. -/
theorem c8_comm_msg_chaining (comms : List (String × Comm))
    (pend : List (String × PendingOpen)) (commId msgId : String)
    (p : PendingOpen) (hp : assocGet pend commId = some p) :
    handleCommMsg comms pend commId msgId =
      (assocSet pend commId { p with chained := p.chained ++ [msgId] },
        CommMsgAction.chainedOntoOpen) ∧
    resolveOpen { p with chained := p.chained ++ [msgId] } =
      CommEvent.targetCalled p.openMsgId ::
        (p.chained.map CommEvent.onMsgCalled ++
          [CommEvent.onMsgCalled msgId]) ∧
    CommEvent.onMsgCalled msgId ∈
      resolveOpen { p with chained := p.chained ++ [msgId] } := by
  refine ⟨?_, ?_, ?_⟩
  · simp [handleCommMsg, hp]
  · simp [resolveOpen]
  · simp [resolveOpen]

/-- C8 witness: with the concrete pending open `open-1` already holding
one chained message, a further `comm_msg` is chained and, on resolution,
delivered after the target callback and the earlier message. -/
theorem c8_comm_msg_chaining_witness :
    handleCommMsg [] [("c1", samplePendingOpen)] "c1" "m2" =
      ([("c1", { openMsgId := "open-1", chained := ["m1", "m2"] })],
        CommMsgAction.chainedOntoOpen) ∧
    resolveOpen { openMsgId := "open-1", chained := ["m1", "m2"] } =
      [CommEvent.targetCalled "open-1", CommEvent.onMsgCalled "m1",
        CommEvent.onMsgCalled "m2"] := by
  have h := c8_comm_msg_chaining [] [("c1", samplePendingOpen)] "c1" "m2"
    samplePendingOpen (by decide)
  exact ⟨h.1, h.2.1⟩

/-- C7 counterexample: when the engine dies and disposes a pending future,
the promise wired by `Private.sendKernelMessage` stays pending — it is not
rejected (there is no path to `reject` at all), contradicting the claim
that it is rejected with `KernelTerminated`. -/
theorem c7_counterexample :
    (wiredRun [FutEvent.futureDisposed]).promise = PromiseSt.pending ∧
    (wiredRun [FutEvent.futureDisposed]).promise ≠ PromiseSt.rejectedP := by
  refine ⟨rfl, by decide⟩

/-- C7 amended: on terminal failure the engine disposes its pending
futures, whose wired promises are never rejected (under any event
sequence; once disposed they stay pending forever), and disposes its
comms locally, sending no `comm_close` payload — while an explicit
`Comm.close` on a live comm does send one, so disposal genuinely differs
from closing. -/
theorem c7_dispose_semantics :
    (∀ evs : List FutEvent, (wiredRun evs).promise ≠ PromiseSt.rejectedP) ∧
    (∀ evs : List FutEvent,
        (List.foldl wiredStep
          { promise := .pending, futureDisposed := true } evs).promise =
          PromiseSt.pending) ∧
    (∀ k : KernelState, (Kernel.dispose k).2 = []) ∧
    (∀ c : Comm, (Comm.disposeComm c).2 = [] ∧
        (Comm.disposeComm c).1.alive = false) ∧
    (∀ c : Comm, c.alive = true →
        (Comm.closeComm c).2 = [{ msgType := "comm_close", commId := c.id }]) := by
  refine ⟨?_, ?_, ?_, ?_, ?_⟩
  · intro evs
    have general : ∀ (l : List FutEvent) (w : WiredRequest),
        w.promise ≠ PromiseSt.rejectedP →
        (List.foldl wiredStep w l).promise ≠ PromiseSt.rejectedP := by
      intro l
      induction l with
      | nil => intro w hw; exact hw
      | cons e rest ih =>
        intro w hw
        refine ih (wiredStep w e) ?_
        cases e with
        | replyArrived =>
          by_cases hd : w.futureDisposed = true
          · simpa [wiredStep, hd] using hw
          · simp only [wiredStep, hd]
            rcases hpr : w.promise with _ | _ | _ <;> simp_all [wiredStep]
        | futureDisposed => simpa [wiredStep] using hw
    exact general evs wiredInit (by decide)
  · intro evs
    have fixed : ∀ e, wiredStep
        { promise := .pending, futureDisposed := true } e =
        { promise := .pending, futureDisposed := true } := by
      intro e; cases e <;> rfl
    induction evs with
    | nil => rfl
    | cons e rest ih => simpa [List.foldl_cons, fixed e] using ih
  · intro k
    unfold Kernel.dispose
    by_cases h : k.isDisposed
    · simp [h]
    · have hf : ¬ k.futures = none := by
        simpa [KernelState.isDisposed] using h
      simp [KernelState.isDisposed, hf, Comm.disposeComm]
  · intro c
    exact ⟨rfl, rfl⟩
  · intro c hc
    simp [Comm.closeComm, hc]

/-- C7 witness: a concrete reply-then-dispose run never rejects, the fresh
engine disposes without sending anything, and a live comm closes with one
`comm_close`. -/
theorem c7_dispose_semantics_witness :
    (wiredRun [FutEvent.replyArrived, FutEvent.futureDisposed]).promise ≠
      PromiseSt.rejectedP ∧
    (Kernel.dispose freshKernel).2 = [] ∧
    (Comm.closeComm { target := "t", id := "c9", alive := true }).2 =
      [{ msgType := "comm_close", commId := "c9" }] :=
  ⟨c7_dispose_semantics.1 [FutEvent.replyArrived, FutEvent.futureDisposed],
    c7_dispose_semantics.2.2.1 freshKernel,
    c7_dispose_semantics.2.2.2.2 { target := "t", id := "c9", alive := true }
      rfl⟩

/-- Outside the reconnect backoff window — socket not ready, or `_ws`
still present — a socket send succeeds and touches neither the `Kernel`
registries nor the status. -/
theorem socketSend_ok (k : KernelState) (m : KernelMessage)
    (h : k.isReady = false ∨ k.wsAlive = true) :
    ∃ k1 sent, socketSend k m = .ok (k1, sent) ∧
      k1.futures = k.futures ∧ k1.status = k.status := by
  rcases h with h | h
  · refine ⟨{ k with pendingMessages := k.pendingMessages ++ [m] }, none,
      ?_, rfl, rfl⟩
    simp [socketSend, h]
  · by_cases hr : k.isReady = true
    · refine ⟨k, some m, ?_, rfl, rfl⟩
      simp [socketSend, hr, h]
    · have hr2 : k.isReady = false := by simpa using hr
      refine ⟨{ k with pendingMessages := k.pendingMessages ++ [m] }, none,
        ?_, rfl, rfl⟩
      simp [socketSend, hr2]

/-- Updating with `restarting` always lands on `Restarting`. -/
theorem updateStatus_restarting (k : KernelState) :
    (updateStatus k "restarting").1.status = .restarting := by
  have hs : statusFromState "restarting" = some KernelStatus.restarting := rfl
  by_cases hrc : KernelStatus.restarting = k.status
  · simp [updateStatus, hs, hrc]
  · simp [updateStatus, hs, hrc]

/-- C5 counterexample: besides `sendShellMessage` and `sendInputReply`,
the public operations `execute`, `restart`, `shutdown`, `connectToComm`
and `registerCommTarget` also throw synchronously on a `Dead` (disposed)
engine; moreover, the send-path operations throw synchronously on a
non-`Dead` engine as well — in the reconnect backoff window `_onWSClose`
has nulled `_ws` but left `_isReady` set, so `this._ws.send` is a
`TypeError` — refuting both the "exactly two" and the "only then" of the
claim. -/
theorem c5_counterexample :
    execute deadKernel sampleExecuteRequest "u" "s" "m1" =
      Except.error "Kernel is dead" ∧
    restart deadKernel = Except.error "TypeError: cannot iterate null state" ∧
    shutdown deadKernel = Except.error "TypeError: cannot iterate null state" ∧
    connectToComm deadKernel "t" "c1" =
      Except.error "TypeError: _comms is null" ∧
    registerCommTarget deadKernel "t" 0 =
      Except.error "TypeError: _targetRegistry is null" ∧
    reconnectingKernel.status = KernelStatus.reconnecting ∧
    sendShellMessage reconnectingKernel sampleShellMsg true true =
      Except.error "TypeError: _ws is null" ∧
    execute reconnectingKernel sampleExecuteRequest "u" "s" "m1" =
      Except.error "TypeError: _ws is null" := by
  refine ⟨rfl, rfl, rfl, rfl, rfl, rfl, rfl, rfl⟩

/-- C5 amended: on a well-formed engine state, outside the `Dead` state
the only synchronous throws are on the send path during the reconnect
backoff window (`_isReady` set, `_ws` null): there `sendShellMessage`,
`sendInputReply` and `execute` throw the socket `TypeError` while the
promise wrappers turn it into a rejected promise; with the socket usable
(not ready, so queueing, or `_ws` present) no operation throws; `restart`,
`shutdown`, `connectToComm` and `registerCommTarget` never throw outside
`Dead`.  In the `Dead` (disposed) state, `sendShellMessage`,
`sendInputReply` and `execute` throw the `Kernel is dead` error,
`restart`, `shutdown`, `connectToComm` and `registerCommTarget` throw on
the nulled registries, and the promise wrappers (`kernelInfo`,
`complete`, `inspect`, `history`, `isComplete`, `commInfo` via
`requestWrapper`) and `interrupt` return rejected promises without
throwing. -/
theorem c5_public_ops (k : KernelState) (hwf : WellFormed k) :
    (k.status ≠ .dead → (k.isReady = false ∨ k.wsAlive = true) →
      (∀ msg er dod, ∃ r, sendShellMessage k msg er dod = .ok r) ∧
      (∀ u s m, ∃ r, sendInputReply k u s m = .ok r) ∧
      (∀ r u s m dod, ∃ v, execute k r u s m dod = .ok v)) ∧
    (k.status ≠ .dead → k.isReady = true → k.wsAlive = false →
      (∀ msg er dod,
        sendShellMessage k msg er dod = .error "TypeError: _ws is null") ∧
      (∀ u s m, sendInputReply k u s m = .error "TypeError: _ws is null") ∧
      (∀ r u s m dod,
        execute k r u s m dod = .error "TypeError: _ws is null") ∧
      (∀ mt u s m c, (requestWrapper k mt u s m c).2 =
        .rejectedNow "TypeError: _ws is null")) ∧
    (k.status ≠ .dead →
      (∃ r, restart k = .ok r) ∧
      (∃ r, shutdown k = .ok r) ∧
      (∀ t c, ∃ r, connectToComm k t c = .ok r) ∧
      (∀ t cb, ∃ r, registerCommTarget k t cb = .ok r)) ∧
    (k.status = .dead →
      (∀ msg er dod, sendShellMessage k msg er dod = .error "Kernel is dead") ∧
      (∀ u s m, sendInputReply k u s m = .error "Kernel is dead") ∧
      (∀ r u s m dod, execute k r u s m dod = .error "Kernel is dead") ∧
      restart k = .error "TypeError: cannot iterate null state" ∧
      shutdown k = .error "TypeError: cannot iterate null state" ∧
      (∀ t c, connectToComm k t c = .error "TypeError: _comms is null") ∧
      (∀ t cb, registerCommTarget k t cb =
        .error "TypeError: _targetRegistry is null") ∧
      (∀ mt u s m c, (requestWrapper k mt u s m c).2 =
        .rejectedNow "Kernel is dead") ∧
      (interrupt k).2 = .rejectedNow "Kernel is dead") := by
  obtain ⟨hfd, hfc, hfp, hft⟩ := hwf
  refine ⟨?_, ?_, ?_, ?_⟩
  · intro hnd hsock
    have hfu : k.futures ≠ none := fun hn => hnd (hfd.mpr hn)
    obtain ⟨fs, hfs⟩ := Option.ne_none_iff_exists.mp hfu
    have hsend : ∀ msg er dod, ∃ r, sendShellMessage k msg er dod = .ok r := by
      intro msg er dod
      obtain ⟨k1, sent, heq, hfut, _⟩ := socketSend_ok k msg hsock
      simp only [sendShellMessage, hnd, if_neg hnd, heq]
      rw [hfut, ← hfs]
      exact ⟨_, rfl⟩
    refine ⟨hsend, ?_, ?_⟩
    · intro u s m
      obtain ⟨k1, sent, heq, _, _⟩ := socketSend_ok k
        (createKernelMessage
          { msgType := "input_reply", channel := .stdin, username := u
            session := s, msgId := m }) hsock
      simp only [sendInputReply, hnd, if_neg hnd, heq]
      exact ⟨_, rfl⟩
    · intro r u s m dod
      exact hsend _ true dod
  · intro hnd hr hw
    refine ⟨?_, ?_, ?_, ?_⟩
    · intro msg er dod
      simp [sendShellMessage, hnd, socketSend, hr, hw]
    · intro u s m
      simp [sendInputReply, hnd, socketSend, hr, hw]
    · intro r u s m dod
      simp [execute, sendShellMessage, hnd, socketSend, hr, hw]
    · intro mt u s m c
      simp [requestWrapper, sendKernelMessage, sendShellMessage, hnd,
        socketSend, hr, hw]
  · intro hnd
    have hfu : k.futures ≠ none := fun hn => hnd (hfd.mpr hn)
    obtain ⟨fs, hfs⟩ := Option.ne_none_iff_exists.mp hfu
    have hcm : k.comms ≠ none := fun hn => hfu (hfc.mpr hn)
    obtain ⟨cs, hcs⟩ := Option.ne_none_iff_exists.mp hcm
    have hrg : k.targetRegistry ≠ none := fun hn => hfu (hft.mpr hn)
    obtain ⟨reg, hreg⟩ := Option.ne_none_iff_exists.mp hrg
    refine ⟨?_, ?_, ?_, ?_⟩
    · simp only [restart, clearState, ← hfs, ← hcs]
      split
      · exact ⟨_, rfl⟩
      · exact ⟨_, rfl⟩
    · simp only [shutdown, clearState, ← hfs, ← hcs]
      split
      · exact ⟨_, rfl⟩
      · exact ⟨_, rfl⟩
    · intro t c
      simp only [connectToComm, ← hcs]
      cases assocGet cs c
      · exact ⟨_, rfl⟩
      · exact ⟨_, rfl⟩
    · intro t cb
      simp only [registerCommTarget, ← hreg]
      exact ⟨_, rfl⟩
  · intro hd
    have hfu : k.futures = none := hfd.mp hd
    have hcm : k.comms = none := hfc.mp hfu
    have hrg : k.targetRegistry = none := hft.mp hfu
    refine ⟨?_, ?_, ?_, ?_, ?_, ?_, ?_, ?_, ?_⟩
    · intro msg er dod; simp [sendShellMessage, hd]
    · intro u s m; simp [sendInputReply, hd]
    · intro r u s m dod; simp [execute, sendShellMessage, hd]
    · simp [restart, clearState, hfu]
    · simp [shutdown, clearState, hfu]
    · intro t c; simp [connectToComm, hcm]
    · intro t cb; simp [registerCommTarget, hrg]
    · intro mt u s m c
      simp [requestWrapper, sendKernelMessage, sendShellMessage, hd]
    · simp [interrupt, hd]

/-- C5 witness: the amended statement applied at the concrete disposed
engine, at the concrete reconnect-backoff engine, and at a fresh engine
whose socket is not yet ready. -/
theorem c5_public_ops_witness :
    WellFormed deadKernel ∧ WellFormed reconnectingKernel ∧
    WellFormed freshKernel ∧
    sendShellMessage deadKernel sampleShellMsg true true =
      Except.error "Kernel is dead" ∧
    sendShellMessage reconnectingKernel sampleShellMsg true true =
      Except.error "TypeError: _ws is null" ∧
    (∃ r, sendShellMessage freshKernel sampleShellMsg true true =
      Except.ok r) ∧
    (interrupt deadKernel).2 = OpPromise.rejectedNow "Kernel is dead" :=
  ⟨by decide, by decide, by decide,
    ((c5_public_ops deadKernel (by decide)).2.2.2 rfl).1 sampleShellMsg
      true true,
    ((c5_public_ops reconnectingKernel (by decide)).2.1 (by decide)
      (by decide) (by decide)).1 sampleShellMsg true true,
    ((c5_public_ops freshKernel (by decide)).1 (by decide)
      (Or.inl rfl)).1 sampleShellMsg true true,
    ((c5_public_ops deadKernel (by decide)).2.2.2 rfl).2.2.2.2.2.2.2.2⟩
